import Mathlib

/-!
Verification of the booking and payment logic of the alx_travel_app
repository (Django app `listings`), shallowly embedded in Lean.

Conventions of the embedding:
* dates are day numbers (`Int`); `(d2 - d1)` is the Python
  `(date2 - date1).days` of `models.py`;
* monetary amounts (`DecimalField`) are integers in fixed minor units, so
  `nights * price_per_night` is exact, as in the source;
* database tables are lists of rows; Django querysets that filter by a
  keyword are modelled by functions that fail when the keyword does not
  resolve to a model field, exactly as Django raises `FieldError`;
* the `validated_data` dictionary produced by a DRF serializer is an
  association list from strings to values, and Python attribute access on
  a `None` result of `dict.get` is modelled as an explicit error outcome.
-/

namespace AlxTravel

/-- Booking status values (models.py, `Booking.STATUS_CHOICES`). -/
inductive BStatus
  | pending
  | confirmed
  | cancelled
  | completed
deriving DecidableEq, Repr

/-- A property listing (models.py `Listing`), restricted to the fields the
booking logic reads. -/
structure Listing where
  id : Nat
  price_per_night : Int
  max_guests : Nat
  availability : Bool
deriving DecidableEq, Repr

/-- A booking row (models.py `Booking`). -/
structure Booking where
  id : Nat
  listing_id : Nat
  guest_id : Nat
  check_in_date : Int
  check_out_date : Int
  number_of_guests : Nat
  total_price : Option Int
  status : BStatus
deriving DecidableEq, Repr

/-- models.py `Booking.save`: before persisting, recompute `total_price` as
`nights * self.listing.price_per_night` from the listing row as it is at the
moment of the save.  (The guard `if self.check_in_date and ...` is vacuous in
every validated flow: both dates and the listing are always set there.) -/
def Booking.save (b : Booking) (l : Listing) : Booking :=
  { b with total_price := some ((b.check_out_date - b.check_in_date) * l.price_per_night) }

/-- models.py `Booking.nights_count`. -/
def Booking.nights_count (b : Booking) : Int :=
  b.check_out_date - b.check_in_date

/-- models.py `Booking.can_cancel`: status is pending or confirmed and the
check-in date is strictly later than today plus one day. -/
def Booking.can_cancel (b : Booking) (today : Int) : Bool :=
  (b.status == BStatus.pending || b.status == BStatus.confirmed) &&
    decide (b.check_in_date > today + 1)

/-- serializers.py `BookingSerializer.create`: compute
`listing.price_per_night * nights` once, then `Booking.objects.create`,
which routes through `Booking.save` (models.py) and therefore recomputes
the same value before the row is inserted. -/
def serializerCreate (l : Listing) (b0 : Booking) : Booking :=
  Booking.save
    { b0 with
      listing_id := l.id,
      total_price := some (l.price_per_night * (b0.check_out_date - b0.check_in_date)) }
    l

/-- Concrete listing used in counterexamples: nightly price 100. -/
def listingA : Listing :=
  { id := 1, price_per_night := 100, max_guests := 4, availability := true }

/-- The same listing row after its nightly price was raised to 200. -/
def listingA' : Listing :=
  { listingA with price_per_night := 200 }

/-- A booking of listing `listingA` for days 7 to 10 (3 nights), as created
through `BookingSerializer.create`. -/
def bookingA : Booking :=
  serializerCreate listingA
    { id := 10, listing_id := 1, guest_id := 2, check_in_date := 7,
      check_out_date := 10, number_of_guests := 2, total_price := none,
      status := BStatus.pending }

/-- C1, counterexample.  A booking created at nightly price 100 for 3 nights
carries total_price 300; after the listing's price changes to 200, merely
saving the booking again recomputes total_price to 600.  The claimed
price-snapshot behaviour is therefore false: total_price does not remain
fixed across a later save. -/
theorem c1_counterexample :
    bookingA.total_price = some 300 ∧
    (Booking.save bookingA listingA').total_price = some 600 ∧
    (Booking.save bookingA listingA').total_price ≠ bookingA.total_price := by
  refine ⟨by decide, by decide, by decide⟩

/-- C1, amended.  At creation, total_price equals nights times the listing's
nightly price at that moment; but the value is not snapshotted: every later
`Booking.save` recomputes it from the listing row current at that save, so a
price change followed by any save changes the stored total. -/
theorem c1_amended : ∀ (l l' : Listing) (b0 : Booking),
    (serializerCreate l b0).total_price =
      some ((b0.check_out_date - b0.check_in_date) * l.price_per_night) ∧
    (Booking.save (serializerCreate l b0) l').total_price =
      some ((b0.check_out_date - b0.check_in_date) * l'.price_per_night) := by
  intro l l' b0
  constructor
  · simp [serializerCreate, Booking.save]
  · simp [serializerCreate, Booking.save]

/-- C9.  The derived predicate can_cancel is true exactly when the booking's
status is pending or confirmed and its check-in date is strictly after today
plus one day (models.py `Booking.can_cancel`); in particular it is false for
completed or cancelled bookings and for check-ins today or tomorrow. -/
theorem c9_can_cancel_iff : ∀ (b : Booking) (today : Int),
    b.can_cancel today = true ↔
      ((b.status = BStatus.pending ∨ b.status = BStatus.confirmed) ∧
        today + 1 < b.check_in_date) := by
  intro b today
  unfold Booking.can_cancel
  simp [Bool.and_eq_true, Bool.or_eq_true, beq_iff_eq, decide_eq_true_iff,
    gt_iff_lt]

/-- Outcome of the booking cancel endpoint. -/
inductive CancelOutcome
  | ok (remaining : List Booking)
  | notFound
deriving DecidableEq, Repr

/-- views.py `BookingViewSet.cancel`: look the booking up by primary key
(`self.get_object()`, 404 when absent), then delete the row unconditionally
and answer 200.  No status or check-in-window condition is consulted. -/
def cancelBooking (db : List Booking) (bid : Nat) : CancelOutcome :=
  match db.find? (fun b => b.id == bid) with
  | none => CancelOutcome.notFound
  | some _ => CancelOutcome.ok (db.filter (fun b => !(b.id == bid)))

/-- A booking whose status is completed and whose check-in is today: under
the claimed policy it must not be cancellable. -/
def bookingPast : Booking :=
  { id := 5, listing_id := 1, guest_id := 2, check_in_date := 0,
    check_out_date := 3, number_of_guests := 2, total_price := some 300,
    status := BStatus.completed }

/-- C4, counterexample.  A completed booking whose check-in is today (so
can_cancel is false and the claimed policy demands a PolicyError) is
nonetheless cancelled successfully: the endpoint deletes the row and reports
success. -/
theorem c4_counterexample :
    bookingPast.status = BStatus.completed ∧
    bookingPast.can_cancel 0 = false ∧
    cancelBooking [bookingPast] 5 = CancelOutcome.ok [] := by
  refine ⟨rfl, by decide, by decide⟩

/-- C4, amended.  Cancel fails with NotFoundError when no booking matches the
id; when a matching booking exists the operation always succeeds by deleting
the row, whatever its status and check-in date: no policy check is performed,
no PolicyError exists, and the record is removed rather than marked
cancelled. -/
theorem c4_amended : ∀ (db : List Booking) (bid : Nat),
    ((∀ b ∈ db, b.id ≠ bid) → cancelBooking db bid = CancelOutcome.notFound) ∧
    (∀ b ∈ db, b.id = bid →
      cancelBooking db bid =
        CancelOutcome.ok (db.filter (fun c => !(c.id == bid)))) := by
  intro db bid
  constructor
  · intro h
    unfold cancelBooking
    have hf : db.find? (fun b => b.id == bid) = none := by
      rw [List.find?_eq_none]
      intro b hb
      simpa using h b hb
    rw [hf]
  · intro b hb hid
    unfold cancelBooking
    cases hf : db.find? (fun c => c.id == bid) with
    | none =>
        have := List.find?_eq_none.mp hf b hb
        simp [hid] at this
    | some c => rfl

/-- C4, witness for the amended theorem at concrete inputs: id 99 is absent
so cancel reports not-found; id 5 is present so cancel deletes the row. -/
theorem c4_amended_witness :
    cancelBooking [bookingPast] 99 = CancelOutcome.notFound ∧
    cancelBooking [bookingPast] 5 = CancelOutcome.ok [] := by
  constructor
  · exact (c4_amended [bookingPast] 99).1 (by decide)
  · exact ((c4_amended [bookingPast] 5).2 bookingPast (by simp) rfl).trans
      (by decide)

/-- A booking occupies the listing's calendar when it is pending or
confirmed. -/
def isActive (b : Booking) : Bool :=
  b.status == BStatus.pending || b.status == BStatus.confirmed

/-- Two active bookings on the same listing whose half-open date ranges
intersect (spec overlap test, mirrored by the queryset filter of
views.py: existing check-in before new check-out and existing check-out
after new check-in). -/
def bookingsConflict (a b : Booking) : Bool :=
  a.listing_id == b.listing_id && isActive a && isActive b &&
    decide (a.check_in_date < b.check_out_date) &&
    decide (b.check_in_date < a.check_out_date)

/-- No two distinct rows of the booking table conflict. -/
def noConflicts : List Booking → Bool
  | [] => true
  | b :: rest => rest.all (fun c => !(bookingsConflict b c)) && noConflicts rest

/-- admin.py `BookingAdmin.confirm_bookings` on one row: selected pending
rows become confirmed, everything else is untouched. -/
def confirmOne (ids : List Nat) (b : Booking) : Booking :=
  if b.id ∈ ids ∧ b.status = BStatus.pending then
    { b with status := BStatus.confirmed }
  else b

/-- admin.py `BookingAdmin.confirm_bookings`:
`queryset.filter(status='pending').update(status='confirmed')`. -/
def confirm_bookings (ids : List Nat) (db : List Booking) : List Booking :=
  db.map (confirmOne ids)

/-- admin.py `BookingAdmin.cancel_bookings` on one row. -/
def cancelOne (ids : List Nat) (b : Booking) : Booking :=
  if b.id ∈ ids ∧ (b.status = BStatus.pending ∨ b.status = BStatus.confirmed) then
    { b with status := BStatus.cancelled }
  else b

/-- admin.py `BookingAdmin.cancel_bookings`:
`queryset.filter(status__in=['pending', 'confirmed']).update(status='cancelled')`. -/
def cancel_bookings (ids : List Nat) (db : List Booking) : List Booking :=
  db.map (cancelOne ids)

/-- admin.py `BookingAdmin.mark_completed` on one row. -/
def completeOne (ids : List Nat) (b : Booking) : Booking :=
  if b.id ∈ ids ∧ b.status = BStatus.confirmed then
    { b with status := BStatus.completed }
  else b

/-- admin.py `BookingAdmin.mark_completed`:
`queryset.filter(status='confirmed').update(status='completed')`. -/
def mark_completed (ids : List Nat) (db : List Booking) : List Booking :=
  db.map (completeOne ids)

/-- One state change of the booking table, as the source performs them:
a seed insertion (seed.py `Command.create_bookings`, the later definition,
which inserts a booking with arbitrary listing, dates within 1 to 14 nights
and arbitrary status, pricing it at nights times the nightly price, with no
overlap check), the three admin status actions (admin.py), or the cancel
endpoint's deletion (views.py). -/
inductive Step : List Booking → List Booking → Prop
  | seed (l : Listing) (b : Booking) (db : List Booking)
      (hlist : b.listing_id = l.id)
      (hlo : 1 ≤ b.check_out_date - b.check_in_date)
      (hhi : b.check_out_date - b.check_in_date ≤ 14)
      (hprice : b.total_price = some ((b.check_out_date - b.check_in_date) * l.price_per_night)) :
      Step db (b :: db)
  | confirm (ids : List Nat) (db : List Booking) : Step db (confirm_bookings ids db)
  | cancel (ids : List Nat) (db : List Booking) : Step db (cancel_bookings ids db)
  | complete (ids : List Nat) (db : List Booking) : Step db (mark_completed ids db)
  | apiCancel (bid : Nat) (db db' : List Booking)
      (h : cancelBooking db bid = CancelOutcome.ok db') : Step db db'

/-- Booking-table states reachable from the empty table by the operations
the source provides. -/
inductive Reachable : List Booking → Prop
  | init : Reachable []
  | next {s s' : List Booking} : Reachable s → Step s s' → Reachable s'

/-- Listing used by the seed counterexample, nightly price 80. -/
def seedListing : Listing :=
  { id := 3, price_per_night := 80, max_guests := 4, availability := true }

/-- First seeded booking: listing 3, days 0 to 3, confirmed. -/
def seedB1 : Booking :=
  { id := 21, listing_id := 3, guest_id := 7, check_in_date := 0,
    check_out_date := 3, number_of_guests := 2, total_price := some 240,
    status := BStatus.confirmed }

/-- Second seeded booking: listing 3, days 1 to 4, confirmed — overlapping
the first. -/
def seedB2 : Booking :=
  { id := 22, listing_id := 3, guest_id := 8, check_in_date := 1,
    check_out_date := 4, number_of_guests := 2, total_price := some 240,
    status := BStatus.confirmed }

/-- C3, counterexample.  Two runs of the seed command's booking loop insert
two confirmed bookings on the same listing with intersecting half-open date
ranges, with no operation ever rejecting them: a reachable state violates
the claimed no-overlap invariant. -/
theorem c3_counterexample :
    Reachable [seedB2, seedB1] ∧ noConflicts [seedB2, seedB1] = false := by
  constructor
  · exact Reachable.next
      (Reachable.next Reachable.init
        (Step.seed seedListing seedB1 [] rfl (by decide) (by decide) (by decide)))
      (Step.seed seedListing seedB2 [seedB1] rfl (by decide) (by decide) (by decide))
  · decide

/-- Unfolding of the Boolean conflict test. -/
theorem bookingsConflict_eq_true_iff (a b : Booking) :
    bookingsConflict a b = true ↔
      (a.listing_id = b.listing_id ∧ isActive a = true ∧ isActive b = true ∧
        a.check_in_date < b.check_out_date ∧ b.check_in_date < a.check_out_date) := by
  unfold bookingsConflict
  simp [Bool.and_eq_true, decide_eq_true_iff, beq_iff_eq, and_assoc]

/-- A row transformation that keeps the listing, both dates, and introduces
no new active rows can only lose conflicts, never create them. -/
theorem conflict_mono_of (f : Booking → Booking)
    (hl : ∀ b, (f b).listing_id = b.listing_id)
    (hi : ∀ b, (f b).check_in_date = b.check_in_date)
    (ho : ∀ b, (f b).check_out_date = b.check_out_date)
    (ha : ∀ b, isActive (f b) = true → isActive b = true) :
    ∀ a b, bookingsConflict (f a) (f b) = true → bookingsConflict a b = true := by
  intro a b h
  rw [bookingsConflict_eq_true_iff] at h ⊢
  obtain ⟨h1, h2, h3, h4, h5⟩ := h
  rw [hl, hl] at h1
  rw [hi, ho] at h4
  rw [hi, ho] at h5
  exact ⟨h1, ha _ h2, ha _ h3, h4, h5⟩

/-- Mapping a conflict-monotone transformation over the table preserves the
absence of conflicts. -/
theorem noConflicts_map_of (f : Booking → Booking)
    (hmono : ∀ a b, bookingsConflict (f a) (f b) = true → bookingsConflict a b = true) :
    ∀ db : List Booking, noConflicts db = true → noConflicts (db.map f) = true := by
  intro db
  induction db with
  | nil => intro _; rfl
  | cons b rest ih =>
      intro h
      simp only [noConflicts, Bool.and_eq_true, List.all_eq_true] at h
      obtain ⟨h1, h2⟩ := h
      simp only [List.map, noConflicts, Bool.and_eq_true, List.all_eq_true]
      refine ⟨?_, ih h2⟩
      intro c hc
      obtain ⟨c0, hc0, rfl⟩ := List.mem_map.mp hc
      have hb := h1 c0 hc0
      cases hx : bookingsConflict (f b) (f c0) with
      | false => simp
      | true =>
          have hbc := hmono b c0 hx
          rw [hbc] at hb
          exact absurd hb (by decide)

/-- Removing rows preserves the absence of conflicts. -/
theorem noConflicts_filter (p : Booking → Bool) :
    ∀ db : List Booking, noConflicts db = true → noConflicts (db.filter p) = true := by
  intro db
  induction db with
  | nil => intro _; rfl
  | cons b rest ih =>
      intro h
      simp only [noConflicts, Bool.and_eq_true, List.all_eq_true] at h
      obtain ⟨h1, h2⟩ := h
      rw [List.filter_cons]
      by_cases hp : p b = true
      · rw [if_pos hp]
        simp only [noConflicts, Bool.and_eq_true, List.all_eq_true]
        refine ⟨?_, ih h2⟩
        intro c hc
        exact h1 c (List.mem_of_mem_filter hc)
      · rw [if_neg hp]
        exact ih h2

/-- The admin confirm action keeps listing, dates, and activity. -/
theorem confirmOne_fields (ids : List Nat) (b : Booking) :
    (confirmOne ids b).listing_id = b.listing_id ∧
    (confirmOne ids b).check_in_date = b.check_in_date ∧
    (confirmOne ids b).check_out_date = b.check_out_date ∧
    (isActive (confirmOne ids b) = true → isActive b = true) := by
  unfold confirmOne
  split
  · rename_i hcond
    refine ⟨rfl, rfl, rfl, ?_⟩
    intro _
    simp [isActive, hcond.2]
  · exact ⟨rfl, rfl, rfl, fun h => h⟩

/-- The admin cancel action keeps listing and dates and only deactivates. -/
theorem cancelOne_fields (ids : List Nat) (b : Booking) :
    (cancelOne ids b).listing_id = b.listing_id ∧
    (cancelOne ids b).check_in_date = b.check_in_date ∧
    (cancelOne ids b).check_out_date = b.check_out_date ∧
    (isActive (cancelOne ids b) = true → isActive b = true) := by
  unfold cancelOne
  split
  · refine ⟨rfl, rfl, rfl, ?_⟩
    intro h
    simp [isActive] at h
  · exact ⟨rfl, rfl, rfl, fun h => h⟩

/-- The admin complete action keeps listing and dates and only deactivates. -/
theorem completeOne_fields (ids : List Nat) (b : Booking) :
    (completeOne ids b).listing_id = b.listing_id ∧
    (completeOne ids b).check_in_date = b.check_in_date ∧
    (completeOne ids b).check_out_date = b.check_out_date ∧
    (isActive (completeOne ids b) = true → isActive b = true) := by
  unfold completeOne
  split
  · refine ⟨rfl, rfl, rfl, ?_⟩
    intro h
    simp [isActive] at h
  · exact ⟨rfl, rfl, rfl, fun h => h⟩

/-- C3, amended.  The status-changing operations — the three admin actions
and the cancel endpoint's deletion — do preserve the no-overlap property of
pending/confirmed bookings; but booking insertion performs no overlap check
in the seed command, so (per the counterexample) states violating the
invariant are reachable, and the invariant does not hold of every reachable
state. -/
theorem c3_amended : ∀ (ids : List Nat) (db : List Booking),
    noConflicts db = true →
      noConflicts (confirm_bookings ids db) = true ∧
      noConflicts (cancel_bookings ids db) = true ∧
      noConflicts (mark_completed ids db) = true ∧
      ∀ (bid : Nat) (db' : List Booking),
        cancelBooking db bid = CancelOutcome.ok db' → noConflicts db' = true := by
  intro ids db h
  refine ⟨?_, ?_, ?_, ?_⟩
  · exact noConflicts_map_of _
      (conflict_mono_of _ (fun b => (confirmOne_fields ids b).1)
        (fun b => (confirmOne_fields ids b).2.1)
        (fun b => (confirmOne_fields ids b).2.2.1)
        (fun b => (confirmOne_fields ids b).2.2.2)) db h
  · exact noConflicts_map_of _
      (conflict_mono_of _ (fun b => (cancelOne_fields ids b).1)
        (fun b => (cancelOne_fields ids b).2.1)
        (fun b => (cancelOne_fields ids b).2.2.1)
        (fun b => (cancelOne_fields ids b).2.2.2)) db h
  · exact noConflicts_map_of _
      (conflict_mono_of _ (fun b => (completeOne_fields ids b).1)
        (fun b => (completeOne_fields ids b).2.1)
        (fun b => (completeOne_fields ids b).2.2.1)
        (fun b => (completeOne_fields ids b).2.2.2)) db h
  · intro bid db' hok
    unfold cancelBooking at hok
    cases hf : db.find? (fun b => b.id == bid) with
    | none =>
        rw [hf] at hok
        exact absurd hok (by simp)
    | some c =>
        rw [hf] at hok
        simp only [CancelOutcome.ok.injEq] at hok
        rw [← hok]
        exact noConflicts_filter _ db h

/-- C3, witness for the amended theorem: on a one-row table the admin
confirm action keeps the table conflict-free. -/
theorem c3_amended_witness :
    noConflicts (confirm_bookings [21] [seedB1]) = true :=
  (c3_amended [21] [seedB1] (by decide)).1

/-- A value inside a DRF serializer's validated_data dictionary. -/
inductive Val
  | str (s : String)
  | int (n : Int)
  | date (d : Int)
deriving DecidableEq, Repr

/-- validated_data: an association list from field names to values. -/
abbrev VData := List (String × Val)

/-- Python `dict.get(key)`: the value when present, otherwise None. -/
def vget (vd : VData) (k : String) : Option Val :=
  (vd.find? (fun kv => kv.fst == k)).map (fun kv => kv.snd)

/-- The keys `BookingSerializer` (serializers.py) can place in
validated_data: exactly its writable fields — the declared fields of its
Meta minus the read-only ones (id, listing, guest, guest_name, nights,
total_price, created_at, updated_at). -/
def bookingSerializerWritableFields : List String :=
  ["listing_id", "check_in_date", "check_out_date", "number_of_guests",
   "status", "special_requests", "guest_email", "guest_phone"]

/-- The keyword lookups that resolve on the Booking model (models.py): its
concrete fields plus the `_id` aliases Django derives from the two foreign
keys.  Any other keyword in a queryset filter raises `FieldError`. -/
def bookingLookupFields : List String :=
  ["id", "listing", "listing_id", "guest", "guest_id", "guest_email",
   "guest_phone", "check_in_date", "check_out_date", "number_of_guests",
   "total_price", "status", "special_requests", "created_at", "updated_at"]

/-- Outcome of the booking-creation request handler. -/
inductive CreateOutcome
  | created
  | badRequest (msg : String)
  | pyError (msg : String)
deriving DecidableEq, Repr

/-- views.py `BookingViewSet.create`, after `serializer.is_valid()` returned
true: it reads `property_id` from validated_data and dereferences `.id` on
it (an AttributeError when the key is absent, since `dict.get` then yields
None); were the key ever present, the handler would check listing existence
and then run the overlap queryset
`Booking.objects.filter(property_id=..., check_in__lt=..., check_out__gt=...)`,
whose keywords do not resolve on the Booking model and therefore raise
`FieldError` before any row is compared. -/
def bookingViewSetCreate (listings : List Listing) (_db : List Booking)
    (vd : VData) : CreateOutcome :=
  match vget vd "property_id" with
  | none => CreateOutcome.pyError "AttributeError: NoneType object has no attribute id"
  | some v =>
      let pid : Nat := match v with
        | Val.int n => n.toNat
        | _ => 0
      if listings.all (fun l => !(l.id == pid)) then
        CreateOutcome.badRequest "Listing does not exist"
      else if "property_id" ∈ bookingLookupFields ∧
          "check_in" ∈ bookingLookupFields ∧ "check_out" ∈ bookingLookupFields then
        CreateOutcome.badRequest "Property is not available for the selected dates"
      else
        CreateOutcome.pyError "FieldError: cannot resolve keyword property_id into field Booking"

/-- C5.  For every request body that passes BookingSerializer validation —
that is, every validated_data whose keys are among the serializer's writable
fields — the creation handler's lookup of `property_id` yields None, the
subsequent attribute dereference fails, and the success path
(serializer.save and a 201 response) is never reached. -/
theorem c5_serializer_keys_mismatch :
    ∀ (listings : List Listing) (db : List Booking) (vd : VData),
      (∀ kv ∈ vd, kv.fst ∈ bookingSerializerWritableFields) →
      bookingViewSetCreate listings db vd =
        CreateOutcome.pyError "AttributeError: NoneType object has no attribute id" ∧
      bookingViewSetCreate listings db vd ≠ CreateOutcome.created := by
  intro listings db vd h
  have hnone : vget vd "property_id" = none := by
    unfold vget
    rw [List.find?_eq_none.mpr]
    · rfl
    · intro kv hkv
      have hmem := h kv hkv
      simp only [beq_iff_eq]
      intro heq
      rw [heq] at hmem
      exact absurd hmem (by decide)
  constructor
  · unfold bookingViewSetCreate
    rw [hnone]
  · unfold bookingViewSetCreate
    rw [hnone]
    intro hcontra
    exact CreateOutcome.noConfusion hcontra

/-- A validated_data instance as BookingSerializer emits it: a stay on
listing 1 for days 8 to 11. -/
def requestVd : VData :=
  [("listing_id", Val.str "1"), ("check_in_date", Val.date 8),
   ("check_out_date", Val.date 11), ("number_of_guests", Val.int 2),
   ("guest_email", Val.str "guest@example.com")]

/-- C5, witness: on a concrete serializer-shaped request the handler raises
the AttributeError and does not create anything. -/
theorem c5_witness :
    bookingViewSetCreate [] [] requestVd =
      CreateOutcome.pyError "AttributeError: NoneType object has no attribute id" ∧
    bookingViewSetCreate [] [] requestVd ≠ CreateOutcome.created :=
  c5_serializer_keys_mismatch [] [] requestVd (by decide)

/-- Listing 1 with an existing booking on days 7 to 10, the scenario of C2. -/
def existingBooking : Booking :=
  { id := 31, listing_id := 1, guest_id := 2, check_in_date := 7,
    check_out_date := 10, number_of_guests := 2, total_price := some 300,
    status := BStatus.pending }

/-- C2.  The request for days 8 to 11 does overlap the existing days 7 to 10
booking under the half-open test the claim describes, but the handler never
reaches any overlap rejection: on this very request it crashes with the
AttributeError, because validated_data carries `listing_id` /
`check_in_date` / `check_out_date` while the handler reads `property_id` /
`check_in` / `check_out`.  (The repository's own test expects a 400
"not available" response here.) -/
theorem c2_overlap_crash :
    bookingsConflict existingBooking
      { existingBooking with id := 32, check_in_date := 8, check_out_date := 11 } = true ∧
    bookingViewSetCreate [listingA] [existingBooking] requestVd =
      CreateOutcome.pyError "AttributeError: NoneType object has no attribute id" := by
  refine ⟨by decide, by decide⟩

/-- Outcome of a list endpoint. -/
inductive ApiListOutcome
  | ok (rows : List Booking)
  | badRequest (msg : String)
  | pyError (msg : String)
deriving DecidableEq, Repr

/-- A Django queryset filter on the Booking table by a single keyword:
`FieldError` when the keyword does not resolve to a Booking field. -/
def bookingObjectsFilter (kw : String) (p : Booking → Bool) (db : List Booking) :
    Except String (List Booking) :=
  if kw ∈ bookingLookupFields then Except.ok (db.filter p)
  else Except.error ("FieldError: cannot resolve keyword " ++ kw ++ " into field Booking")

/-- views.py `ListingViewSet.bookings`:
`Booking.objects.filter(property_id=listing)`; the raised `FieldError`
propagates out of the handler (an HTTP 500). -/
def listingBookingsEndpoint (db : List Booking) (l : Listing) : ApiListOutcome :=
  match bookingObjectsFilter "property_id" (fun b => b.listing_id == l.id) db with
  | Except.ok rows => ApiListOutcome.ok rows
  | Except.error e => ApiListOutcome.pyError e

/-- views.py `BookingViewSet.user_bookings`: a missing user_id parameter is
a 400; otherwise `Booking.objects.filter(user_id=user_id)` runs inside
`try/except Exception`, so the raised `FieldError` is converted into a 400
response carrying its message. -/
def userBookingsEndpoint (db : List Booking) (userId : Option Nat) : ApiListOutcome :=
  match userId with
  | none => ApiListOutcome.badRequest "user_id parameter is required"
  | some uid =>
      match bookingObjectsFilter "user_id" (fun b => b.guest_id == uid) db with
      | Except.ok rows => ApiListOutcome.ok rows
      | Except.error e => ApiListOutcome.badRequest e

/-- C10.  Neither bookings query ever returns a row list: the listing
endpoint filters on the nonexistent Booking field `property_id` and dies
with a `FieldError`, and the guest endpoint filters on the nonexistent field
`user_id` and turns the same error into a 400 response — against the
repository's own tests, which expect both to answer 200 with the matching
bookings. -/
theorem c10_field_errors : ∀ (db : List Booking) (l : Listing) (uid : Nat),
    listingBookingsEndpoint db l =
      ApiListOutcome.pyError "FieldError: cannot resolve keyword property_id into field Booking" ∧
    userBookingsEndpoint db (some uid) =
      ApiListOutcome.badRequest "FieldError: cannot resolve keyword user_id into field Booking" ∧
    (∀ rows, listingBookingsEndpoint db l ≠ ApiListOutcome.ok rows) ∧
    (∀ rows, userBookingsEndpoint db (some uid) ≠ ApiListOutcome.ok rows) := by
  intro db l uid
  have h1 : listingBookingsEndpoint db l =
      ApiListOutcome.pyError "FieldError: cannot resolve keyword property_id into field Booking" := by
    rfl
  have h2 : userBookingsEndpoint db (some uid) =
      ApiListOutcome.badRequest "FieldError: cannot resolve keyword user_id into field Booking" := by
    rfl
  refine ⟨h1, h2, ?_, ?_⟩
  · intro rows hcontra
    rw [h1] at hcontra
    exact ApiListOutcome.noConfusion hcontra
  · intro rows hcontra
    rw [h2] at hcontra
    exact ApiListOutcome.noConfusion hcontra

/-- Payment status values (spec data model: initialized, pending, success,
failed). -/
inductive PStatus
  | initialized
  | pending
  | success
  | failed
deriving DecidableEq, Repr

/-- A payment row.  The Payment model is imported from `.models` by
serializers.py and views.py but its definition is not under src/; the fields
here are the ones those importers and the spec data model use. -/
structure Payment where
  id : Nat
  booking_id : Nat
  amount : Int
  chapa_reference : String
  status : PStatus
  verification_attempts : Nat
  verified_at : Option Int
deriving DecidableEq, Repr

/-- Modelled from the spec: `Payment.is_successful`, called by
`PaymentInitializationSerializer.validate_booking_id` but defined in the
missing Payment model; per the spec a booking is already paid exactly when
its payment record has status success. -/
def Payment.is_successful (p : Payment) : Bool :=
  p.status == PStatus.success

/-- What the processor's verify endpoint reports for a transaction. -/
inductive ProcReport
  | success
  | failed
  | pending
  | gatewayError (msg : String)
deriving DecidableEq, Repr

/-- Modelled from the spec: the verification/reconciliation update of a
Payment record.  The Payment model and the verify/webhook view are not under
src/ (src/ holds only the serializers that reference them), so this follows
the spec's words: verify increments the verification attempt counter,
records the verification timestamp, and updates status from the processor's
reported state — except that a record already in status success is terminal
and is never regressed; webhook reconciliation triggers this same path. -/
def verifyReconcile (p : Payment) (now : Int) (rep : ProcReport) : Payment :=
  let p' := { p with verification_attempts := p.verification_attempts + 1,
                     verified_at := some now }
  if p.status = PStatus.success then p'
  else
    match rep with
    | ProcReport.success => { p' with status := PStatus.success }
    | ProcReport.failed => { p' with status := PStatus.failed }
    | ProcReport.pending => { p' with status := PStatus.pending }
    | ProcReport.gatewayError _ => p'

/-- C6.  Once a payment's status is success it is terminal: whatever the
processor reports — success, failed, pending, stale, or a gateway error —
running the verify/webhook reconciliation leaves the status equal to
success, so duplicated or out-of-order deliveries never regress it. -/
theorem c6_success_terminal : ∀ (p : Payment) (now : Int) (rep : ProcReport),
    p.status = PStatus.success →
    (verifyReconcile p now rep).status = PStatus.success := by
  intro p now rep h
  unfold verifyReconcile
  rw [if_pos h]
  exact h

/-- A payment already verified successfully. -/
def paidPayment : Payment :=
  { id := 41, booking_id := 10, amount := 300, chapa_reference := "tx-41",
    status := PStatus.success, verification_attempts := 1,
    verified_at := some 3 }

/-- C6, witness: re-verifying the successful payment against a stale
`failed` processor report keeps its status success. -/
theorem c6_success_terminal_witness :
    (verifyReconcile paidPayment 5 ProcReport.failed).status = PStatus.success :=
  c6_success_terminal paidPayment 5 ProcReport.failed rfl

/-- The booking and payment tables seen by the payment serializers. -/
structure PayDB where
  bookings : List Booking
  payments : List Payment
deriving DecidableEq, Repr

/-- `Booking.objects.get(id=value)` as an optional lookup. -/
def PayDB.findBooking (db : PayDB) (bid : Nat) : Option Booking :=
  db.bookings.find? (fun b => b.id == bid)

/-- The reverse one-to-one accessor `booking.payment`
(`hasattr(booking, 'payment')` is its presence). -/
def PayDB.paymentFor (db : PayDB) (bid : Nat) : Option Payment :=
  db.payments.find? (fun p => p.booking_id == bid)

/-- Outcome of a serializer field validator. -/
inductive ValidateOutcome
  | ok (bid : Nat)
  | validationError (msg : String)
deriving DecidableEq, Repr

/-- serializers.py `PaymentInitializationSerializer.validate_booking_id`:
missing booking, an already-successful payment, and a cancelled booking are
rejected, in that order; otherwise the id is accepted. -/
def validate_booking_id (db : PayDB) (bid : Nat) : ValidateOutcome :=
  match db.findBooking bid with
  | none => ValidateOutcome.validationError "Booking not found."
  | some b =>
      if Option.any Payment.is_successful (db.paymentFor bid) then
        ValidateOutcome.validationError "This booking has already been paid for."
      else if b.status == BStatus.cancelled then
        ValidateOutcome.validationError "Cannot pay for a cancelled booking."
      else ValidateOutcome.ok bid

/-- C7.  Payment initialization rejects a booking id with a ValidationError
exactly when the booking does not exist, or the booking's payment record has
status success, or the booking is cancelled; in every other case the id is
accepted.  In particular a second initialization for a booking whose payment
already succeeded is rejected. -/
theorem c7_initialize_validation : ∀ (db : PayDB) (bid : Nat),
    (∃ m, validate_booking_id db bid = ValidateOutcome.validationError m) ↔
      (db.findBooking bid = none ∨
       (∃ p, db.paymentFor bid = some p ∧ p.status = PStatus.success) ∨
       (∃ b, db.findBooking bid = some b ∧ b.status = BStatus.cancelled)) := by
  intro db bid
  unfold validate_booking_id
  cases hb : db.findBooking bid with
  | none =>
      simp only [hb]
      constructor
      · intro _
        exact Or.inl (by simp)
      · intro _
        exact ⟨"Booking not found.", rfl⟩
  | some b =>
      simp only [hb]
      cases hp : Option.any Payment.is_successful (db.paymentFor bid) with
      | true =>
          rw [if_pos rfl]
          constructor
          · intro _
            refine Or.inr (Or.inl ?_)
            cases hpp : db.paymentFor bid with
            | none => rw [hpp] at hp; exact absurd hp (by decide)
            | some p =>
                rw [hpp] at hp
                refine ⟨p, rfl, ?_⟩
                have : p.is_successful = true := by simpa [Option.any] using hp
                simpa [Payment.is_successful] using this
          · intro _
            exact ⟨"This booking has already been paid for.", rfl⟩
      | false =>
          rw [if_neg (by simp)]
          cases hc : b.status == BStatus.cancelled with
          | true =>
              rw [if_pos rfl]
              constructor
              · intro _
                refine Or.inr (Or.inr ⟨b, rfl, ?_⟩)
                simpa using hc
              · intro _
                exact ⟨"Cannot pay for a cancelled booking.", rfl⟩
          | false =>
              rw [if_neg (by simp)]
              constructor
              · intro ⟨m, hm⟩
                exact absurd hm (by simp)
              · intro hdisj
                rcases hdisj with hnone | ⟨p, hpp, hps⟩ | ⟨b2, hb2, hbs⟩
                · exact absurd hnone (by simp)
                · rw [hpp] at hp
                  have : p.is_successful = true := by
                    simp [Payment.is_successful, hps]
                  simp [Option.any, this] at hp
                · have hbb : b = b2 := by
                    simpa using hb2
                  rw [← hbb] at hbs
                  rw [hbs] at hc
                  exact absurd hc (by decide)

/-- Behaviour of the external processor on one HTTP call, as seen by
chapa_service.py: the requests call can raise a RequestException (transport
failure or timeout), raise_for_status can raise on a non-2xx response, and
response.json() can raise on a malformed body; otherwise a parsed body with
an optional message field comes back. -/
inductive ProcBehaviour
  | transportFailure (msg : String)
  | non2xx (code : Nat)
  | malformedBody (msg : String)
  | okBody (message : Option String)
deriving DecidableEq, Repr

/-- The Python exceptions the adapter's try blocks can see. -/
inductive PyExc
  | requestException (msg : String)
  | valueError (msg : String)
deriving DecidableEq, Repr

/-- The requests.post/get + raise_for_status + response.json() sequence
inside each adapter call. -/
def httpJsonCall (b : ProcBehaviour) : Except PyExc (Option String) :=
  match b with
  | ProcBehaviour.transportFailure e => Except.error (PyExc.requestException e)
  | ProcBehaviour.non2xx code =>
      Except.error (PyExc.requestException ("HTTP " ++ toString code))
  | ProcBehaviour.malformedBody e => Except.error (PyExc.valueError e)
  | ProcBehaviour.okBody m => Except.ok m

/-- The uniform result dictionary the adapter returns. -/
structure ChapaResult where
  status : String
  message : String
deriving DecidableEq, Repr

/-- chapa_service.py `ChapaService.initialize_payment`: the whole call runs
under `try/except RequestException/except Exception`, each handler returning
an error-status dictionary; on success the body's message (or a default) is
propagated with status success. -/
def initialize_payment (b : ProcBehaviour) : ChapaResult :=
  match httpJsonCall b with
  | Except.ok m =>
      { status := "success", message := m.getD "Payment initialized successfully" }
  | Except.error (PyExc.requestException e) =>
      { status := "error", message := "Payment initialization failed: " ++ e }
  | Except.error (PyExc.valueError e) =>
      { status := "error", message := "Unexpected error: " ++ e }

/-- chapa_service.py `ChapaService.verify_payment`, wrapped the same way. -/
def verify_payment (b : ProcBehaviour) : ChapaResult :=
  match httpJsonCall b with
  | Except.ok m =>
      { status := "success", message := m.getD "Payment verified successfully" }
  | Except.error (PyExc.requestException e) =>
      { status := "error", message := "Payment verification failed: " ++ e }
  | Except.error (PyExc.valueError e) =>
      { status := "error", message := "Unexpected error: " ++ e }

/-- C8.  For every processor behaviour — transport failure, timeout, non-2xx
response, malformed body, or a well-formed reply — the adapter's initialize
and verify calls return a result whose status is either success or error
(never an uncaught fault): every exception path of the wrapped call is
translated into an error-status result with a message. -/
theorem c8_adapter_total : ∀ (b : ProcBehaviour),
    ((initialize_payment b).status = "success" ∨ (initialize_payment b).status = "error") ∧
    ((verify_payment b).status = "success" ∨ (verify_payment b).status = "error") := by
  intro b
  cases b with
  | transportFailure e => exact ⟨Or.inr rfl, Or.inr rfl⟩
  | non2xx code => exact ⟨Or.inr rfl, Or.inr rfl⟩
  | malformedBody e => exact ⟨Or.inr rfl, Or.inr rfl⟩
  | okBody m => exact ⟨Or.inl rfl, Or.inl rfl⟩

end AlxTravel
